import Mathlib

/-!
Shallow embedding of the Optimizer_Agent learning service
(`src/learning_agent/{models,analysis,logic,regime_logic}.py`).

Conventions:
* Python floats are embedded as exact rationals (`ℚ`); every numeric literal
  of the source (0.4, 1.5, 0.005, …) is written as the corresponding rational.
* Python dicts whose keys are strings are embedded as association lists
  `List (String × _)` in insertion order; dict assignment of a fresh key is
  an append at the tail.
* External numeric libraries (numpy's `std`, pandas-ta's indicator columns)
  are not code of this repository; they enter as explicit parameters, so all
  theorems below hold for every possible behaviour of those externals.
-/

namespace OptimizerAgent

/-- `models.py` `AgentVote`: one signal source's recommended action and
confidence for one trade. -/
structure AgentVote where
  action : String
  confidence : ℚ
deriving DecidableEq

/-- `models.py` `Trade`: one historical trade. `pnl_pct` is the realized
profit-and-loss fraction. -/
structure Trade where
  trade_id : String
  asset_id : String
  final_verdict : String
  executed : Bool
  pnl_pct : ℚ
  holding_days : ℤ
  market_regime : String
  agent_votes : List (String × AgentVote)
  timestamp : String
deriving DecidableEq

/-- `models.py` `PricePoint`: one OHLCV bar. -/
structure PricePoint where
  timestamp : String
  «open» : ℚ
  high : ℚ
  low : ℚ
  close : ℚ
  volume : ℤ
deriving DecidableEq

/-- `models.py` `IndicatorSettings`: indicator window parameters. -/
structure IndicatorSettings where
  ema_fast : ℕ
  ema_slow : ℕ
  adx_period : ℕ
  atr_period : ℕ
  rsi_period : ℕ
deriving DecidableEq

/-- `models.py` `MarketRegimeInput`. -/
structure MarketRegimeInput where
  symbol : String
  timeframe : String
  price_history : List PricePoint
  indicators : IndicatorSettings
deriving DecidableEq

/-- `models.py` `PolicyDeltas`: sparse policy adjustments. The Python
`strategy_bias`/`guardrails` fields have type `Dict[str, Any]`; no code path
of the repository ever inserts into them, so the value type is immaterial and
is fixed to `ℚ` here. -/
structure PolicyDeltas where
  agent_weights : List (String × ℚ) := []
  risk : List (String × ℚ) := []
  strategy_bias : List (String × ℚ) := []
  guardrails : List (String × ℚ) := []
  asset_biases : List (String × ℚ) := []
deriving DecidableEq

/-- `models.py` `LearningResponse`. -/
structure LearningResponse where
  learning_state : String
  learning_mode : Option String := none
  confidence_score : ℚ := 0
  policy_deltas : PolicyDeltas := {}
  reasoning : List String := []
deriving DecidableEq

/-- `models.py` `LearnedPatterns`. -/
structure LearnedPatterns where
  trend_character : Option String := none
  false_breakout_risk : Option String := none
  best_strategy_fit : List String := []
deriving DecidableEq

/-- `models.py` `MarketRegimeOutput`. -/
structure MarketRegimeOutput where
  learning_state : String := "success"
  market_regime : Option String := none
  confidence : ℚ
  explanation : List String := []
  learned_patterns : Option LearnedPatterns := none
  risk_notes : List String := []
  reasoning : List String := []
deriving DecidableEq

/-- `models.py` `CurrentPolicyRisk`. -/
structure CurrentPolicyRisk where
  risk_per_trade : ℚ
  max_position_pct : ℚ
  stop_loss_pct : ℚ
deriving DecidableEq

/-- `models.py` `CurrentPolicyStrategyBias`. -/
structure CurrentPolicyStrategyBias where
  preferred_regime : String
deriving DecidableEq

/-- `models.py` `CurrentPolicy`. -/
structure CurrentPolicy where
  agent_weights : List (String × ℚ)
  risk : CurrentPolicyRisk
  strategy_bias : CurrentPolicyStrategyBias
deriving DecidableEq

/-- `models.py` `LearningRequest`. -/
structure LearningRequest where
  learning_mode : String
  window_size : ℤ
  trade_history : List Trade
  price_history : List (String × List PricePoint)
  current_policy : CurrentPolicy
deriving DecidableEq

/-! ### `analysis.py`: confirmation-bias detection -/

/-- `analysis.py` line 108: `sorted(agent_accuracies.values())[len(agent_accuracies) // 2]`.
Total version: returns `0` for an empty map (the caller guards that case). -/
def medianAccuracy (agent_accuracies : List (String × ℚ)) : ℚ :=
  ((agent_accuracies.map Prod.snd).mergeSort (fun a b => a ≤ b)).getD
    (agent_accuracies.length / 2) 0

/-- `analysis.py` `detect_confirmation_bias` (lines 96-119): given per-source
accuracy and per-source weight maps, flag every weighted source; a source is
flagged `true` iff it is present in the accuracy map, its weight exceeds 0.4,
and its accuracy is below the median accuracy. Empty accuracy map returns the
empty mapping. -/
def detect_confirmation_bias (agent_accuracies agent_weights : List (String × ℚ)) :
    List (String × Bool) :=
  if agent_accuracies = [] then []
  else
    let median_accuracy := medianAccuracy agent_accuracies
    agent_weights.map fun nw =>
      match agent_accuracies.lookup nw.1 with
      | some accuracy => (nw.1, decide (nw.2 > (2/5 : ℚ)) && decide (accuracy < median_accuracy))
      | none => (nw.1, false)

/-! ### `logic.py`: asset-aware learning cycle -/

def ASSET_MIN_TRADES_WARMUP : ℕ := 10
def MAX_DRAWDOWN_THRESHOLD : ℚ := 2/25
def CONSECUTIVE_LOSS_THRESHOLD : ℕ := 3
def RECENT_TRADES_WINDOW : ℕ := 10
def RISK_PER_TRADE_ADJUSTMENT : ℚ := -(1/200)
def PERFORMANCE_UPPER_THRESHOLD : ℚ := 7/10
def PERFORMANCE_LOWER_THRESHOLD : ℚ := 9/20
def BIAS_ADJUSTMENT_INCREMENT : ℚ := 1/20
def WEIGHT_WIN_RATE : ℚ := 1/2
def WEIGHT_MAX_DRAWDOWN : ℚ := 7/20
def WEIGHT_VOLATILITY : ℚ := 3/20
def MAX_ACCEPTABLE_DRAWDOWN : ℚ := 1/5
def MAX_ACCEPTABLE_VOLATILITY : ℚ := 1/10

/-- numpy `np.cumprod`: running products, same length as the input. -/
def cumprod (xs : List ℚ) : List ℚ :=
  (xs.scanl (· * ·) 1).tail

/-- Helper for `runningMax`. -/
def runningMaxAux (cur : ℚ) : List ℚ → List ℚ
  | [] => []
  | x :: xs => max cur x :: runningMaxAux (max cur x) xs

/-- numpy `np.maximum.accumulate`: running maxima, same length as the input. -/
def runningMax : List ℚ → List ℚ
  | [] => []
  | x :: xs => x :: runningMaxAux x xs

/-- numpy `np.min` on a non-empty array (`0` for the empty list; the source
guards emptiness before calling it). -/
def listMin : List ℚ → ℚ
  | [] => 0
  | x :: xs => xs.foldl min x

/-- `logic.py` line 38: `np.cumprod([1 + p for p in pnl_pcts])` — the equity
curve computed for performance metrics. -/
def equityCurve (pnl_pcts : List ℚ) : List ℚ :=
  cumprod (pnl_pcts.map (fun p => 1 + p))

/-- `logic.py` return value of `_calculate_asset_performance`. -/
structure PerfMetrics where
  win_rate : ℚ
  max_drawdown : ℚ
  volatility : ℚ
  trade_count : ℕ
deriving DecidableEq

/-- `logic.py` `_calculate_asset_performance` (lines 25-51). `std` stands for
numpy's `np.std` (an external real-valued routine); every theorem below is
proved for an arbitrary `std`. -/
def _calculate_asset_performance (std : List ℚ → ℚ) (trades : List Trade) : PerfMetrics :=
  let pnl_pcts := trades.map (·.pnl_pct)
  { win_rate :=
      if pnl_pcts = [] then 0
      else ((pnl_pcts.filter (fun p => decide (0 < p))).length : ℚ) / (pnl_pcts.length : ℚ)
    max_drawdown :=
      if pnl_pcts = [] then 0
      else
        let equity_curve := equityCurve pnl_pcts
        let peak := runningMax equity_curve
        let drawdown := equity_curve.zipWith (fun c p => (c - p) / p) peak
        if drawdown = [] then 0 else |listMin drawdown|
    volatility := if 1 < pnl_pcts.length then std pnl_pcts else 0
    trade_count := trades.length }

/-- One step of `logic.py` lines 61-63: append a trade to its asset's bucket
(`defaultdict(list)`), keeping first-occurrence key order. -/
def addTradeToGroups (groups : List (String × List Trade)) (t : Trade) :
    List (String × List Trade) :=
  if groups.any (fun g => g.1 = t.asset_id) then
    groups.map (fun g => if g.1 = t.asset_id then (g.1, g.2 ++ [t]) else g)
  else
    groups ++ [(t.asset_id, [t])]

/-- `logic.py` lines 61-63: group the trade history by `asset_id`. -/
def groupByAsset (trade_history : List Trade) : List (String × List Trade) :=
  trade_history.foldl addTradeToGroups []

/-- `logic.py` line 103: the asset's trades sorted by timestamp, newest first
(Python's stable `sorted(..., reverse=True)`), truncated to the recent
window. -/
def assetRecentTrades (trades : List Trade) : List Trade :=
  (trades.mergeSort (fun a b => decide (b.timestamp ≤ a.timestamp))).take RECENT_TRADES_WINDOW

/-- `logic.py` lines 107-116: scan the recent pnl list, counting consecutive
losses; `true` once the count reaches the threshold. -/
def consecLossRun (count : ℕ) : List ℚ → Bool
  | [] => false
  | pnl :: rest =>
    if pnl < 0 then
      if CONSECUTIVE_LOSS_THRESHOLD ≤ count + 1 then true
      else consecLossRun (count + 1) rest
    else consecLossRun 0 rest

/-- Whether `logic.py` lines 106-116 flag this asset for consecutive losses. -/
def assetConsecLossFlag (trades : List Trade) : Bool :=
  consecLossRun 0 ((assetRecentTrades trades).map (·.pnl_pct))

/-- Whether `logic.py` lines 118-122 flag this asset for high recent
drawdown. -/
def assetRecentDrawdownFlag (std : List ℚ → ℚ) (trades : List Trade) : Bool :=
  decide ((_calculate_asset_performance std (assetRecentTrades trades)).max_drawdown
    > MAX_DRAWDOWN_THRESHOLD)

/-- `logic.py` lines 82-89: blended performance score of a warmed-up asset. -/
def performanceScore (std : List ℚ → ℚ) (trades : List Trade) : ℚ :=
  let perf := _calculate_asset_performance std trades
  let wr_score := perf.win_rate
  let mdd_score := 1 - min 1 (perf.max_drawdown / MAX_ACCEPTABLE_DRAWDOWN)
  let vol_score := 1 - min 1 (perf.volatility / MAX_ACCEPTABLE_VOLATILITY)
  WEIGHT_WIN_RATE * wr_score + WEIGHT_MAX_DRAWDOWN * mdd_score + WEIGHT_VOLATILITY * vol_score

/-- `logic.py` lines 91-97: bias delta assigned to a warmed-up asset. -/
def biasDelta (std : List ℚ → ℚ) (trades : List Trade) : ℚ :=
  if performanceScore std trades > PERFORMANCE_UPPER_THRESHOLD then BIAS_ADJUSTMENT_INCREMENT
  else if performanceScore std trades < PERFORMANCE_LOWER_THRESHOLD then
    -BIAS_ADJUSTMENT_INCREMENT
  else 0

/-- Mutable locals of the `for asset_id, trades in trades_by_asset.items()`
loop of `logic.py` lines 70-122. -/
structure LoopState where
  assets_in_warmup : ℕ
  global_risk_adjustment_needed : Bool
  asset_biases : List (String × ℚ)
  reasoning : List String
deriving DecidableEq

/-- One iteration of the per-asset loop (`logic.py` lines 73-122). Reasoning
strings interpolate the exact rationals where Python formats floats to two
decimals; only the digits differ. -/
def processAsset (std : List ℚ → ℚ) (st : LoopState) (g : String × List Trade) : LoopState :=
  if g.2.length < ASSET_MIN_TRADES_WARMUP then
    { st with
      assets_in_warmup := st.assets_in_warmup + 1,
      reasoning := st.reasoning ++
        ["Asset '" ++ g.1 ++ "' is in warmup (" ++ toString g.2.length ++ "/" ++
          toString ASSET_MIN_TRADES_WARMUP ++ " trades). No bias will be applied."] }
  else
    let delta := biasDelta std g.2
    let reasoning1 := st.reasoning ++
      (if performanceScore std g.2 > PERFORMANCE_UPPER_THRESHOLD then
        ["Asset '" ++ g.1 ++ "' performance score (" ++ toString (performanceScore std g.2) ++
          ") is above " ++ toString PERFORMANCE_UPPER_THRESHOLD ++ ". Applying positive bias."]
      else if performanceScore std g.2 < PERFORMANCE_LOWER_THRESHOLD then
        ["Asset '" ++ g.1 ++ "' performance score (" ++ toString (performanceScore std g.2) ++
          ") is below " ++ toString PERFORMANCE_LOWER_THRESHOLD ++ ". Applying negative bias."]
      else [])
    let biases1 := if delta ≠ 0 then st.asset_biases ++ [(g.1, delta)] else st.asset_biases
    let consec := assetConsecLossFlag g.2
    let reasoning2 := reasoning1 ++
      (if consec then
        ["Asset '" ++ g.1 ++ "' has " ++ toString CONSECUTIVE_LOSS_THRESHOLD ++
          " consecutive losses. Flagging for risk review."]
      else [])
    let ddHigh := assetRecentDrawdownFlag std g.2
    let reasoning3 := reasoning2 ++
      (if ddHigh then
        ["Asset '" ++ g.1 ++ "' has a high recent drawdown. Flagging for risk review."]
      else [])
    { assets_in_warmup := st.assets_in_warmup,
      global_risk_adjustment_needed := st.global_risk_adjustment_needed || consec || ddHigh,
      asset_biases := biases1,
      reasoning := reasoning3 }

/-- `logic.py` `run_learning_cycle` (lines 53-134). `std` stands for numpy's
`np.std`. -/
def run_learning_cycle (std : List ℚ → ℚ) (request : LearningRequest) : LearningResponse :=
  let trades_by_asset := groupByAsset request.trade_history
  if trades_by_asset = [] then
    { learning_state := "insufficient_data",
      policy_deltas := {},
      reasoning := ["No trades provided in the history."] }
  else
    let final := trades_by_asset.foldl (processAsset std) ⟨0, false, [], []⟩
    { learning_state :=
        if final.assets_in_warmup = trades_by_asset.length then "warmup" else "success",
      policy_deltas :=
        { risk :=
            if final.global_risk_adjustment_needed then
              [("risk_per_trade", RISK_PER_TRADE_ADJUSTMENT)]
            else [],
          asset_biases := final.asset_biases },
      reasoning := final.reasoning ++
        (if final.global_risk_adjustment_needed then
          ["Applying a global risk reduction of " ++ toString RISK_PER_TRADE_ADJUSTMENT ++
            " due to drawdown clustering."]
        else []) }

/-! ### `regime_logic.py`: market-regime classification -/

/-- The `indicators` dict built at `regime_logic.py` lines 144-150. -/
structure RegimeIndicators where
  is_ema_trend_up : Bool
  is_ema_trend_down : Bool
  is_strong_trend : Bool
  is_bullish_momentum : Bool
  is_bearish_momentum : Bool
  is_weak_trend : Bool
  is_in_band : Bool
  is_ema_slope_flat : Bool
  adx : ℚ
  rsi : ℚ
deriving DecidableEq

/-- `regime_logic.py` line 33: `sum(uptrend_signals)`. -/
def uptrendScore (ind : RegimeIndicators) : ℕ :=
  ind.is_ema_trend_up.toNat + ind.is_strong_trend.toNat + ind.is_bullish_momentum.toNat

/-- `regime_logic.py` line 34: `sum(downtrend_signals)`. -/
def downtrendScore (ind : RegimeIndicators) : ℕ :=
  ind.is_ema_trend_down.toNat + ind.is_strong_trend.toNat + ind.is_bearish_momentum.toNat

/-- `regime_logic.py` line 35: `sum(ranging_signals)`. -/
def rangingScore (ind : RegimeIndicators) : ℕ :=
  ind.is_weak_trend.toNat + ind.is_in_band.toNat + ind.is_ema_slope_flat.toNat

/-- `regime_logic.py` `_classify_regime` (lines 8-80): score the three signal
groups, pick the unique best regime when its score is at least 2, otherwise
`undefined` with confidence 0.3. Explanation strings interpolate exact
rationals where Python formats floats to two decimals. -/
def _classify_regime (ind : RegimeIndicators) (settings : IndicatorSettings) :
    MarketRegimeOutput :=
  let scores := [("uptrend", uptrendScore ind), ("downtrend", downtrendScore ind),
    ("ranging", rangingScore ind)]
  let max_score := max (uptrendScore ind) (max (downtrendScore ind) (rangingScore ind))
  let best_regimes := (scores.filter (fun rs => rs.2 = max_score)).map Prod.fst
  if 2 ≤ max_score ∧ best_regimes.length = 1 then
    let regime := best_regimes.headD "undefined"
    if regime = "uptrend" then
      let confidence : ℚ := (max_score : ℚ) / 3
      { market_regime := some "uptrend", confidence := confidence,
        explanation :=
          (if ind.is_ema_trend_up then
            ["EMA " ++ toString settings.ema_fast ++ " is above EMA " ++
              toString settings.ema_slow ++ "."] else []) ++
          (if ind.is_strong_trend then
            ["ADX at " ++ toString ind.adx ++ " indicates a strong trend."] else []) ++
          (if ind.is_bullish_momentum then
            ["RSI at " ++ toString ind.rsi ++ " shows bullish momentum."] else []),
        learned_patterns := some
          { trend_character := some "steady_accumulation",
            false_breakout_risk := some (if confidence > 9/10 then "low" else "medium"),
            best_strategy_fit := ["trend_following", "pullback_entry"] },
        risk_notes := ["Watch for RSI divergence as a sign of potential exhaustion."] }
    else if regime = "downtrend" then
      let confidence : ℚ := (max_score : ℚ) / 3
      { market_regime := some "downtrend", confidence := confidence,
        explanation :=
          (if ind.is_ema_trend_down then
            ["EMA " ++ toString settings.ema_fast ++ " is below EMA " ++
              toString settings.ema_slow ++ "."] else []) ++
          (if ind.is_strong_trend then
            ["ADX at " ++ toString ind.adx ++ " indicates a strong trend."] else []) ++
          (if ind.is_bearish_momentum then
            ["RSI at " ++ toString ind.rsi ++ " shows bearish momentum."] else []),
        learned_patterns := some
          { trend_character := some "consistent_distribution",
            false_breakout_risk := some (if confidence > 9/10 then "low" else "medium"),
            best_strategy_fit := ["trend_following", "short_selling"] },
        risk_notes := ["Be cautious of sharp reversals if volume diminishes."] }
    else if regime = "ranging" then
      let confidence : ℚ := (max_score : ℚ) / 3
      { market_regime := some "ranging", confidence := confidence,
        explanation :=
          (if ind.is_weak_trend then
            ["ADX at " ++ toString ind.adx ++ " suggests a lack of clear trend."] else []) ++
          (if ind.is_in_band then
            ["Price is oscillating within a plus-minus 1.5 percent band of the 50-period SMA."]
          else []) ++
          (if ind.is_ema_slope_flat then
            ["EMA slope is nearly flat, indicating consolidation."] else []),
        learned_patterns := some
          { trend_character := some "sideways_consolidation",
            false_breakout_risk := some "high",
            best_strategy_fit := ["mean_reversion", "range_trading"] },
        risk_notes :=
          ["Avoid trend-following strategies. Watch for a breakout with volume expansion."] }
    else
      { market_regime := some regime, confidence := 0, learned_patterns := some {} }
  else
    { market_regime := some "undefined", confidence := 3/10,
      explanation := ["Market conditions are mixed and do not clearly fit any defined regime."],
      learned_patterns := some {} }

/-- One row of the indicator dataframe of `run_regime_analysis` after
`df.dropna()` (`regime_logic.py` lines 101-109): the OHLC columns together
with the indicator columns computed by the external pandas-ta library. -/
structure IndRow where
  high : ℚ
  low : ℚ
  close : ℚ
  ema_fast : ℚ
  ema_slow : ℚ
  adx : ℚ
  rsi : ℚ
  atr : ℚ
  sma_50 : ℚ
deriving DecidableEq

/-- `latest[col]` (`regime_logic.py` line 113): the named column on the last
row; the `0` default is never reached on the non-empty frames the caller
guards. -/
def latestField (rows : List IndRow) (f : IndRow → ℚ) : ℚ :=
  (rows.getLast?.map f).getD 0

/-- `regime_logic.py` line 120: `ema_fast > ema_slow`. -/
def frameEmaTrendUp (rows : List IndRow) : Bool :=
  decide (latestField rows (·.ema_fast) > latestField rows (·.ema_slow))

/-- `regime_logic.py` line 121: `ema_fast < ema_slow`. -/
def frameEmaTrendDown (rows : List IndRow) : Bool :=
  decide (latestField rows (·.ema_fast) < latestField rows (·.ema_slow))

/-- `regime_logic.py` lines 122-123: last value of `diff(EMA_fast)/EMA_fast`
below 0.0005 in absolute value. With a single row the diff is NaN and the
Python comparison is `False`; with a zero latest EMA the quotient is
inf or NaN, also comparing `False` — both embedded explicitly. -/
def frameEmaSlopeFlat (rows : List IndRow) : Bool :=
  let efs := rows.map (·.ema_fast)
  match efs.getLast?, efs.dropLast.getLast? with
  | some lv, some pv => if lv = 0 then false else decide (|(lv - pv) / lv| < 1/2000)
  | _, _ => false

/-- `regime_logic.py` line 124: `adx > 25`. -/
def frameStrongTrend (rows : List IndRow) : Bool :=
  decide (latestField rows (·.adx) > 25)

/-- `regime_logic.py` line 125: `adx < 20`. -/
def frameWeakTrend (rows : List IndRow) : Bool :=
  decide (latestField rows (·.adx) < 20)

/-- `regime_logic.py` line 126: `rsi > 60`. -/
def frameBullishMomentum (rows : List IndRow) : Bool :=
  decide (latestField rows (·.rsi) > 60)

/-- `regime_logic.py` line 127: `rsi < 40`. -/
def frameBearishMomentum (rows : List IndRow) : Bool :=
  decide (latestField rows (·.rsi) < 40)

/-- `regime_logic.py` line 128: 20-bar rolling mean of the ATR column at the
last row; `none` models the NaN produced when fewer than 20 rows exist. -/
def atrAvg20 (rows : List IndRow) : Option ℚ :=
  if rows.length < 20 then none
  else some (((rows.map (·.atr)).drop (rows.length - 20)).sum / 20)

/-- `regime_logic.py` line 129: latest ATR above 1.5 times its 20-bar rolling
average (`False` when the average is NaN). -/
def frameAtrSpike (rows : List IndRow) : Bool :=
  match atrAvg20 rows with
  | none => false
  | some avg => decide (latestField rows (·.atr) > 3/2 * avg)

/-- `regime_logic.py` lines 130-131: latest close within the ±1.5% band of
the 50-period SMA. -/
def frameInBand (rows : List IndRow) : Bool :=
  decide (latestField rows (·.close) > latestField rows (·.sma_50) * (197/200)) &&
    decide (latestField rows (·.close) < latestField rows (·.sma_50) * (203/200))

/-- Python `xs[-n:]`. -/
def lastN (n : ℕ) (xs : List ℚ) : List ℚ :=
  xs.drop (xs.length - n)

/-- numpy/pandas max of a non-empty series (`0` on the empty list; all call
sites guard non-emptiness). -/
def listMax : List ℚ → ℚ
  | [] => 0
  | x :: xs => xs.foldl max x

/-- `regime_logic.py` line 134: positions of swing highs, i.e. bars whose
high strictly exceeds both neighbours (the boundary comparisons against the
shifted NaN are `False` in Python, so the first and last bar never qualify). -/
def swingHighIdxs (highs : List ℚ) : List ℕ :=
  (List.range highs.length).filter (fun i =>
    decide (0 < i) && decide (i + 1 < highs.length) &&
    decide (highs.getD i 0 > highs.getD (i - 1) 0) &&
    decide (highs.getD i 0 > highs.getD (i + 1) 0))

/-- `regime_logic.py` line 139: positions of swing lows. -/
def swingLowIdxs (lows : List ℚ) : List ℕ :=
  (List.range lows.length).filter (fun i =>
    decide (0 < i) && decide (i + 1 < lows.length) &&
    decide (lows.getD i 0 < lows.getD (i - 1) 0) &&
    decide (lows.getD i 0 < lows.getD (i + 1) 0))

/-- `regime_logic.py` lines 134-137: the last five bars' maximum high breaks
the maximum of the last 50 swing highs occurring before the fifth-from-last
bar. (For 1-4 remaining rows Python's `df.index[-5]` would raise; the prior
set is empty there, so no break is reported — a swing high before the cutoff
needs at least 7 rows anyway.) -/
def structureBreakHigh (rows : List IndRow) : Bool :=
  let highs := rows.map (·.high)
  let swing_highs := (swingHighIdxs highs).drop ((swingHighIdxs highs).length - 50)
  let prior := swing_highs.filter (fun i => decide (i < rows.length - 5))
  decide (prior ≠ []) &&
    decide (listMax (lastN 5 highs) > listMax (prior.map (fun i => highs.getD i 0)))

/-- `regime_logic.py` lines 139-142: the last five bars' minimum low breaks
the minimum of the last 50 swing lows occurring before the fifth-from-last
bar. -/
def structureBreakLow (rows : List IndRow) : Bool :=
  let lows := rows.map (·.low)
  let swing_lows := (swingLowIdxs lows).drop ((swingLowIdxs lows).length - 50)
  let prior := swing_lows.filter (fun i => decide (i < rows.length - 5))
  decide (prior ≠ []) &&
    decide (listMin (lastN 5 lows) < listMin (prior.map (fun i => lows.getD i 0)))

/-- `regime_logic.py` lines 133-142: either swing structure is broken. -/
def frameStructureBreak (rows : List IndRow) : Bool :=
  structureBreakHigh rows || structureBreakLow rows

/-- The `indicators` dict of `regime_logic.py` lines 144-150, derived from
the frame. -/
def deriveIndicators (rows : List IndRow) : RegimeIndicators :=
  { is_ema_trend_up := frameEmaTrendUp rows
    is_ema_trend_down := frameEmaTrendDown rows
    is_strong_trend := frameStrongTrend rows
    is_bullish_momentum := frameBullishMomentum rows
    is_bearish_momentum := frameBearishMomentum rows
    is_weak_trend := frameWeakTrend rows
    is_in_band := frameInBand rows
    is_ema_slope_flat := frameEmaSlopeFlat rows
    adx := latestField rows (·.adx)
    rsi := latestField rows (·.rsi) }

/-- `regime_logic.py` lines 110-166: the part of `run_regime_analysis` after
indicator computation — empty-frame guard, volatile-transition override, and
scored classification. -/
def analyzeFrame (settings : IndicatorSettings) (rows : List IndRow) : MarketRegimeOutput :=
  if rows = [] then
    { learning_state := "insufficient_data", confidence := 1/5,
      reasoning := ["Not enough data for indicators."] }
  else if frameAtrSpike rows || frameStructureBreak rows then
    { market_regime := some "volatile_transition", confidence := 1,
      explanation :=
        (if frameAtrSpike rows then
          ["ATR has spiked, indicating a sharp increase in volatility."] else []) ++
        (if frameStructureBreak rows then
          ["Price has broken a recent swing structure, suggesting a potential change."]
        else []),
      learned_patterns := some
        { trend_character := some "unpredictable",
          false_breakout_risk := some "very_high",
          best_strategy_fit := ["breakout_strategies", "volatility_trading"] },
      risk_notes := ["High risk of whipsaws. Position sizing should be reduced."] }
  else
    _classify_regime (deriveIndicators rows) settings

/-- `regime_logic.py` `run_regime_analysis` (lines 82-166). The `frame`
parameter stands for the dataframe rows that remain after the external
pandas-ta indicator computation and `dropna()`; the readiness gate on the raw
price history length and everything after indicator computation are the
repository's own code and are embedded exactly. -/
def run_regime_analysis (request : MarketRegimeInput) (frame : List IndRow) :
    MarketRegimeOutput :=
  if request.price_history.length < request.indicators.ema_slow + 50 then
    { learning_state := "insufficient_data", confidence := 1/5,
      reasoning := ["Price history length < " ++ toString (request.indicators.ema_slow + 50) ++
        " bars, EMA and ADX cannot be computed reliably"] }
  else
    analyzeFrame request.indicators frame

/-! ### Claim-side definitions and concrete inputs -/

/-- Claim-side companion for C1, following the claim's words: the regime
achieving the strict, uniquely achieved maximum score when that maximum is at
least 2 (confidence = score / 3), `undefined` with confidence 0.3 whenever the
maximum is below 2 or achieved by more than one group. -/
def claimRegimeClassification (ind : RegimeIndicators) : Option String × ℚ :=
  let u := uptrendScore ind
  let d := downtrendScore ind
  let r := rangingScore ind
  if 2 ≤ u ∧ d < u ∧ r < u then (some "uptrend", (u : ℚ) / 3)
  else if 2 ≤ d ∧ u < d ∧ r < d then (some "downtrend", (d : ℚ) / 3)
  else if 2 ≤ r ∧ u < r ∧ d < r then (some "ranging", (r : ℚ) / 3)
  else (some "undefined", 3/10)

/-- Claim-side formula for C3, following the spec's words: max drawdown is the
maximum over the equity curve of `(running peak − current) / running peak`. -/
def claimMaxDrawdown (pnl_pcts : List ℚ) : ℚ :=
  listMax ((equityCurve pnl_pcts).zipWith (fun c p => (p - c) / p)
    (runningMax (equityCurve pnl_pcts)))

/-- Whether one asset group triggers the global risk flag of `logic.py`
lines 102-122: the asset is warmed up and shows either a consecutive-loss run
or a high recent drawdown. -/
def assetFlagged (std : List ℚ → ℚ) (g : String × List Trade) : Bool :=
  decide (ASSET_MIN_TRADES_WARMUP ≤ g.2.length) &&
    (assetConsecLossFlag g.2 || assetRecentDrawdownFlag std g.2)

/-- A stand-in for numpy's `std` used to instantiate witnesses. -/
def stdZero : List ℚ → ℚ := fun _ => 0

/-- A single losing trade used in the C3 witness. -/
def tradeC3 : Trade :=
  ⟨"t1", "A", "buy", true, -(1/2), 1, "trending", [], "2023-01-01"⟩

/-- An indicator row with all columns equal to 1. -/
def rowFlat : IndRow := ⟨1, 1, 1, 1, 1, 1, 1, 1, 1⟩

/-- An indicator row whose ATR column spikes to 10. -/
def rowSpike : IndRow := ⟨1, 1, 1, 1, 1, 1, 1, 10, 1⟩

/-- A 20-row frame ending in an ATR spike: latest ATR 10 exceeds 1.5 times
the 20-bar rolling average (19 + 10)/20. -/
def frameC2 : List IndRow := List.replicate 19 rowFlat ++ [rowSpike]

/-- A request whose 70-bar price history passes the readiness gate for
`ema_slow = 20`. -/
def requestC2 : MarketRegimeInput :=
  ⟨"TEST", "1D", List.replicate 70 ⟨"t", 1, 1, 1, 1, 1⟩, ⟨10, 20, 14, 14, 14⟩⟩

/-- A request with an empty price history, far short of the readiness gate. -/
def requestShort : MarketRegimeInput := ⟨"TEST", "1D", [], ⟨10, 20, 14, 14, 14⟩⟩

/-! ### Helper lemmas -/

lemma scanl_mul_get : ∀ (xs : List ℚ) (b : ℚ) (i : ℕ)
    (hi : i < (xs.scanl (· * ·) b).length),
    (xs.scanl (· * ·) b).get ⟨i, hi⟩ = b * (xs.take i).prod
  | [], b, 0, _ => by simp [List.scanl_nil]
  | [], b, i + 1, hi => by simp [List.scanl_nil] at hi
  | x :: xs, b, 0, _ => by simp [List.scanl_cons]
  | x :: xs, b, i + 1, hi => by
    have hi' : i < ((xs).scanl (· * ·) (b * x)).length := by
      simpa [List.scanl_cons] using hi
    have step : ((x :: xs).scanl (· * ·) b).get ⟨i + 1, hi⟩ =
        ((xs).scanl (· * ·) (b * x)).get ⟨i, hi'⟩ := by
      simp [List.scanl_cons]
    rw [step, scanl_mul_get xs (b * x) i hi']
    simp [mul_assoc]

lemma equityCurve_length (pnl_pcts : List ℚ) :
    (equityCurve pnl_pcts).length = pnl_pcts.length := by
  simp [equityCurve, cumprod, List.length_tail, List.length_scanl]

lemma equityCurve_get (pnl_pcts : List ℚ) (i : ℕ) (hi : i < (equityCurve pnl_pcts).length) :
    (equityCurve pnl_pcts).get ⟨i, hi⟩ =
      ((pnl_pcts.take (i + 1)).map (fun p => 1 + p)).prod := by
  unfold equityCurve cumprod
  rw [List.get_tail, scanl_mul_get]
  simp [List.map_take]

lemma equityCurve_getLast? (pnl_pcts : List ℚ) (h : pnl_pcts ≠ []) :
    (equityCurve pnl_pcts).getLast? = some ((pnl_pcts.map (fun p => 1 + p)).prod) := by
  have hl : (equityCurve pnl_pcts).length = pnl_pcts.length := equityCurve_length _
  have hn : 0 < pnl_pcts.length := List.length_pos.mpr h
  have hlt : (equityCurve pnl_pcts).length - 1 < (equityCurve pnl_pcts).length := by omega
  rw [List.getLast?_eq_getElem?, List.getElem?_eq_getElem hlt]
  have := equityCurve_get pnl_pcts ((equityCurve pnl_pcts).length - 1) hlt
  rw [List.get_eq_getElem] at this
  rw [this]
  have hidx : (equityCurve pnl_pcts).length - 1 + 1 = pnl_pcts.length := by omega
  rw [hidx, List.take_length]

lemma foldl_min_le_init (xs : List ℚ) (a : ℚ) : xs.foldl min a ≤ a := by
  induction xs generalizing a with
  | nil => exact le_refl a
  | cons x xs ih => exact le_trans (ih (min a x)) (min_le_left a x)

lemma foldl_max_neg (xs : List ℚ) (a : ℚ) :
    (xs.map (fun q => -q)).foldl max (-a) = -(xs.foldl min a) := by
  induction xs generalizing a with
  | nil => rfl
  | cons x xs ih => simp only [List.map_cons, List.foldl_cons, max_neg_neg, ih]

lemma listMax_map_neg (D : List ℚ) : listMax (D.map (fun q => -q)) = -listMin D := by
  cases D with
  | nil => simp [listMax, listMin]
  | cons x xs => simp [listMax, listMin, foldl_max_neg]

lemma zipWith_drawdown_neg (L P : List ℚ) :
    L.zipWith (fun c p => (p - c) / p) P =
      (L.zipWith (fun c p => (c - p) / p) P).map (fun q => -q) := by
  induction L generalizing P with
  | nil => simp
  | cons c L ih =>
    cases P with
    | nil => simp
    | cons p P =>
      simp only [List.zipWith_cons_cons, List.map_cons, ih, List.cons.injEq, and_true]
      rw [← neg_div, neg_sub]

lemma max_drawdown_eq_abs_listMin (std : List ℚ → ℚ) (trades : List Trade)
    (h : trades.map (·.pnl_pct) ≠ []) :
    (_calculate_asset_performance std trades).max_drawdown =
      |listMin ((equityCurve (trades.map (·.pnl_pct))).zipWith (fun c p => (c - p) / p)
        (runningMax (equityCurve (trades.map (·.pnl_pct)))))| := by
  have hne : equityCurve (trades.map (·.pnl_pct)) ≠ [] := by
    intro hc
    have := equityCurve_length (trades.map (·.pnl_pct))
    rw [hc] at this
    exact h (List.eq_nil_of_length_eq_zero this.symm)
  have hdne : (equityCurve (trades.map (·.pnl_pct))).zipWith (fun c p => (c - p) / p)
      (runningMax (equityCurve (trades.map (·.pnl_pct)))) ≠ [] := by
    cases hcv : equityCurve (trades.map (·.pnl_pct)) with
    | nil => exact absurd hcv hne
    | cons a l => simp [hcv, runningMax]
  simp only [_calculate_asset_performance, if_neg h, if_neg hdne]

lemma listMin_drawdown_nonpos (pnl_pcts : List ℚ) (h : pnl_pcts ≠ []) :
    listMin ((equityCurve pnl_pcts).zipWith (fun c p => (c - p) / p)
      (runningMax (equityCurve pnl_pcts))) ≤ 0 := by
  have hne : equityCurve pnl_pcts ≠ [] := by
    intro hc
    have := equityCurve_length pnl_pcts
    rw [hc] at this
    exact h (List.eq_nil_of_length_eq_zero this.symm)
  obtain ⟨c0, cs, hc⟩ : ∃ c0 cs, equityCurve pnl_pcts = c0 :: cs := by
    cases hcv : equityCurve pnl_pcts with
    | nil => exact absurd hcv hne
    | cons a l => exact ⟨a, l, rfl⟩
  rw [hc]
  simp only [runningMax, List.zipWith_cons_cons, sub_self, zero_div, listMin]
  exact foldl_min_le_init _ 0

lemma swingHighIdxs_replicate (n : ℕ) (a : ℚ) : swingHighIdxs (List.replicate n a) = [] := by
  unfold swingHighIdxs
  rw [List.filter_eq_nil_iff]
  intro i hi h
  have hin : i < n := by simpa using hi
  simp only [List.length_replicate, List.getD_eq_getElem?_getD, List.getElem?_replicate,
    Bool.and_eq_true, decide_eq_true_eq] at h
  obtain ⟨⟨⟨h0, h1⟩, h2⟩, h3⟩ := h
  rw [if_pos hin, if_pos h1] at h3
  simp at h3

lemma swingLowIdxs_replicate (n : ℕ) (a : ℚ) : swingLowIdxs (List.replicate n a) = [] := by
  unfold swingLowIdxs
  rw [List.filter_eq_nil_iff]
  intro i hi h
  have hin : i < n := by simpa using hi
  simp only [List.length_replicate, List.getD_eq_getElem?_getD, List.getElem?_replicate,
    Bool.and_eq_true, decide_eq_true_eq] at h
  obtain ⟨⟨⟨h0, h1⟩, h2⟩, h3⟩ := h
  rw [if_pos hin, if_pos h1] at h3
  simp at h3

lemma frameAtrSpike_frameC2 : frameAtrSpike frameC2 = true := by
  norm_num [frameAtrSpike, atrAvg20, frameC2, rowFlat, rowSpike, latestField,
    List.sum_append, List.sum_replicate, List.getLast?_concat]

lemma frameStructureBreak_frameC2 : frameStructureBreak frameC2 = false := by
  have hhigh : frameC2.map (·.high) = List.replicate 20 (1 : ℚ) := by
    simp [frameC2, rowFlat, rowSpike, ← List.replicate_succ']
  have hlow : frameC2.map (·.low) = List.replicate 20 (1 : ℚ) := by
    simp [frameC2, rowFlat, rowSpike, ← List.replicate_succ']
  simp only [frameStructureBreak, structureBreakHigh, structureBreakLow, hhigh, hlow,
    swingHighIdxs_replicate, swingLowIdxs_replicate]
  simp

lemma addTradeToGroups_ne_nil (groups : List (String × List Trade)) (t : Trade) :
    addTradeToGroups groups t ≠ [] := by
  unfold addTradeToGroups
  split
  · next h =>
    cases groups with
    | nil => simp at h
    | cons a as => simp
  · simp

lemma foldl_addTrade_ne_nil (ts : List Trade) (groups : List (String × List Trade))
    (h : groups ≠ []) : ts.foldl addTradeToGroups groups ≠ [] := by
  induction ts generalizing groups with
  | nil => exact h
  | cons t ts ih => exact ih _ (addTradeToGroups_ne_nil _ _)

lemma groupByAsset_eq_nil_iff (ts : List Trade) : groupByAsset ts = [] ↔ ts = [] := by
  cases ts with
  | nil => simp [groupByAsset]
  | cons t ts =>
    simp only [groupByAsset, List.foldl_cons]
    constructor
    · intro h
      exact absurd h (foldl_addTrade_ne_nil ts _ (addTradeToGroups_ne_nil [] t))
    · intro h
      cases h

lemma processAsset_warmups (std : List ℚ → ℚ) (st : LoopState) (g : String × List Trade) :
    (processAsset std st g).assets_in_warmup =
      st.assets_in_warmup + (if g.2.length < ASSET_MIN_TRADES_WARMUP then 1 else 0) := by
  by_cases h : g.2.length < ASSET_MIN_TRADES_WARMUP <;> simp [processAsset, h]

lemma processAsset_flag (std : List ℚ → ℚ) (st : LoopState) (g : String × List Trade) :
    (processAsset std st g).global_risk_adjustment_needed =
      (st.global_risk_adjustment_needed || assetFlagged std g) := by
  by_cases h : g.2.length < ASSET_MIN_TRADES_WARMUP
  · have h' : ¬ ASSET_MIN_TRADES_WARMUP ≤ g.2.length := by omega
    simp [processAsset, assetFlagged, h, h']
  · have h' : ASSET_MIN_TRADES_WARMUP ≤ g.2.length := by omega
    simp [processAsset, assetFlagged, h, h', Bool.or_assoc]

lemma biasDelta_cases (std : List ℚ → ℚ) (trades : List Trade) :
    biasDelta std trades = BIAS_ADJUSTMENT_INCREMENT ∨
      biasDelta std trades = -BIAS_ADJUSTMENT_INCREMENT ∨ biasDelta std trades = 0 := by
  unfold biasDelta
  split_ifs <;> simp

lemma processAsset_biases_subset (std : List ℚ → ℚ) (st : LoopState)
    (g : String × List Trade) (p : String × ℚ)
    (hp : p ∈ (processAsset std st g).asset_biases) :
    p ∈ st.asset_biases ∨ p.2 = BIAS_ADJUSTMENT_INCREMENT ∨
      p.2 = -BIAS_ADJUSTMENT_INCREMENT := by
  by_cases h : g.2.length < ASSET_MIN_TRADES_WARMUP
  · simp [processAsset, h] at hp
    exact Or.inl hp
  · simp only [processAsset, if_neg h] at hp
    by_cases hd : biasDelta std g.2 = 0
    · rw [if_neg (not_not_intro hd)] at hp
      exact Or.inl hp
    · rw [if_pos hd] at hp
      rcases List.mem_append.mp hp with h1 | h2
      · exact Or.inl h1
      · have hpb : p = (g.1, biasDelta std g.2) := by simpa using h2
        rcases biasDelta_cases std g.2 with hb | hb | hb
        · exact Or.inr (Or.inl (by rw [hpb, hb]))
        · exact Or.inr (Or.inr (by rw [hpb, hb]))
        · exact absurd hb hd

lemma foldl_processAsset_flag (std : List ℚ → ℚ) (gs : List (String × List Trade))
    (st : LoopState) :
    (gs.foldl (processAsset std) st).global_risk_adjustment_needed =
      (st.global_risk_adjustment_needed || gs.any (assetFlagged std)) := by
  induction gs generalizing st with
  | nil => simp
  | cons g gs ih =>
    simp [List.foldl_cons, ih, processAsset_flag, List.any_cons, Bool.or_assoc]

lemma foldl_processAsset_warmups (std : List ℚ → ℚ) (gs : List (String × List Trade))
    (st : LoopState) :
    (gs.foldl (processAsset std) st).assets_in_warmup =
      st.assets_in_warmup +
        gs.countP (fun g => decide (g.2.length < ASSET_MIN_TRADES_WARMUP)) := by
  induction gs generalizing st with
  | nil => simp
  | cons g gs ih =>
    rw [List.foldl_cons, ih, processAsset_warmups, List.countP_cons]
    by_cases h : g.2.length < ASSET_MIN_TRADES_WARMUP
    · simp [h]
      omega
    · simp [h]

lemma foldl_processAsset_biases (std : List ℚ → ℚ) (gs : List (String × List Trade))
    (st : LoopState) (p : String × ℚ)
    (hp : p ∈ (gs.foldl (processAsset std) st).asset_biases) :
    p ∈ st.asset_biases ∨ p.2 = BIAS_ADJUSTMENT_INCREMENT ∨
      p.2 = -BIAS_ADJUSTMENT_INCREMENT := by
  induction gs generalizing st with
  | nil => exact Or.inl hp
  | cons g gs ih =>
    rw [List.foldl_cons] at hp
    rcases ih (processAsset std st g) hp with h1 | h2
    · exact processAsset_biases_subset std st g p h1
    · exact Or.inr h2

lemma run_learning_cycle_state (std : List ℚ → ℚ) (request : LearningRequest) :
    (run_learning_cycle std request).learning_state =
      if request.trade_history = [] then "insufficient_data"
      else if (groupByAsset request.trade_history).all
          (fun g => decide (g.2.length < ASSET_MIN_TRADES_WARMUP)) then "warmup"
      else "success" := by
  by_cases h : request.trade_history = []
  · rw [if_pos h]
    simp [run_learning_cycle, h, groupByAsset]
  · have hg : groupByAsset request.trade_history ≠ [] := by
      rw [Ne, groupByAsset_eq_nil_iff]
      exact h
    rw [if_neg h]
    simp only [run_learning_cycle, if_neg hg]
    rw [foldl_processAsset_warmups]
    simp only [Nat.zero_add]
    by_cases hall : (groupByAsset request.trade_history).all
        (fun g => decide (g.2.length < ASSET_MIN_TRADES_WARMUP)) = true
    · rw [if_pos hall, if_pos]
      rw [List.countP_eq_length]
      intro g hgmem
      exact (List.all_eq_true.mp hall) g hgmem
    · rw [if_neg hall, if_neg]
      intro hc
      exact hall (List.all_eq_true.mpr (List.countP_eq_length.mp hc))

lemma nodup_keys_eq (ws : List (String × ℚ)) (h : (ws.map Prod.fst).Nodup)
    {n : String} {w w' : ℚ} (h1 : (n, w) ∈ ws) (h2 : (n, w') ∈ ws) : w = w' := by
  induction ws with
  | nil => simp at h1
  | cons hd tl ih =>
    rw [List.map_cons, List.nodup_cons] at h
    rcases List.mem_cons.mp h1 with e1 | m1 <;> rcases List.mem_cons.mp h2 with e2 | m2
    · exact congrArg Prod.snd (e1.trans e2.symm)
    · exfalso
      apply h.1
      have hn : hd.1 = n := (congrArg Prod.fst e1).symm
      rw [hn]
      exact List.mem_map.mpr ⟨(n, w'), m2, rfl⟩
    · exfalso
      apply h.1
      have hn : hd.1 = n := (congrArg Prod.fst e2).symm
      rw [hn]
      exact List.mem_map.mpr ⟨(n, w), m1, rfl⟩
    · exact ih h.2 m1 m2

/-! ### Claim theorems -/

/-- C3 counterexample: on a one-trade history the equity curve computed by
the code (`equityCurve`, i.e. `np.cumprod([1 + p ...])`) has length 1, not
trade count + 1. -/
theorem equity_curve_claim_counterexample :
    ¬ ((equityCurve [(1 : ℚ) / 10]).length = 1 + 1) := by
  decide

/-- C3 amended: the code's equity curve has an implicit baseline of 1 that is
not stored as an element — its length equals the trade count, its i-th entry
is the compounded product of `(1 + pnl_pct)` over the first i+1 trades in
order, its last entry is the product over all trades, and the reported max
drawdown equals the maximum over this curve of
`(running peak − current) / running peak`. -/
theorem equity_curve_amended (std : List ℚ → ℚ) (trades : List Trade)
    (h : trades ≠ []) :
    (equityCurve (trades.map (·.pnl_pct))).length = trades.length ∧
    (∀ i (hi : i < (equityCurve (trades.map (·.pnl_pct))).length),
      (equityCurve (trades.map (·.pnl_pct))).get ⟨i, hi⟩ =
        (((trades.map (·.pnl_pct)).take (i + 1)).map (fun p => 1 + p)).prod) ∧
    (equityCurve (trades.map (·.pnl_pct))).getLast? =
      some (((trades.map (·.pnl_pct)).map (fun p => 1 + p)).prod) ∧
    (_calculate_asset_performance std trades).max_drawdown =
      claimMaxDrawdown (trades.map (·.pnl_pct)) := by
  have hp : trades.map (·.pnl_pct) ≠ [] := by
    simpa using h
  refine ⟨by simpa using equityCurve_length (trades.map (·.pnl_pct)),
    fun i hi => equityCurve_get _ i hi, equityCurve_getLast? _ hp, ?_⟩
  rw [max_drawdown_eq_abs_listMin std trades hp]
  rw [abs_of_nonpos (listMin_drawdown_nonpos _ hp)]
  rw [claimMaxDrawdown, zipWith_drawdown_neg, listMax_map_neg]

/-- Witness for C3's amended claim at a concrete one-loss history: curve
length 1, last value 1/2, and the max-drawdown identity. -/
theorem equity_curve_amended_witness :
    (equityCurve ([tradeC3].map (·.pnl_pct))).length = 1 ∧
    (equityCurve ([tradeC3].map (·.pnl_pct))).getLast? = some (1/2) ∧
    (_calculate_asset_performance stdZero [tradeC3]).max_drawdown =
      claimMaxDrawdown ([tradeC3].map (·.pnl_pct)) := by
  obtain ⟨h1, h2, h3, h4⟩ := equity_curve_amended stdZero [tradeC3] (by simp)
  refine ⟨h1, ?_, h4⟩
  rw [h3]
  norm_num [tradeC3]

/-- C2: whenever the price series passes the readiness gate, the frame is
non-empty, and the volatility-spike condition (latest ATR above 1.5 times its
20-bar rolling average) or the structure-break condition holds, the classifier
returns regime `volatile_transition` with confidence exactly 1.0 regardless of
all other derived features, and the explanation lists exactly the trigger(s)
that fired. -/
theorem volatile_transition_override (request : MarketRegimeInput) (frame : List IndRow)
    (hgate : ¬ request.price_history.length < request.indicators.ema_slow + 50)
    (hne : frame ≠ [])
    (htrig : frameAtrSpike frame = true ∨ frameStructureBreak frame = true) :
    run_regime_analysis request frame =
      { market_regime := some "volatile_transition", confidence := 1,
        explanation :=
          (if frameAtrSpike frame then
            ["ATR has spiked, indicating a sharp increase in volatility."] else []) ++
          (if frameStructureBreak frame then
            ["Price has broken a recent swing structure, suggesting a potential change."]
          else []),
        learned_patterns := some
          { trend_character := some "unpredictable",
            false_breakout_risk := some "very_high",
            best_strategy_fit := ["breakout_strategies", "volatility_trading"] },
        risk_notes := ["High risk of whipsaws. Position sizing should be reduced."] } := by
  have hor : (frameAtrSpike frame || frameStructureBreak frame) = true := by
    rcases htrig with h | h <;> simp [h]
  unfold run_regime_analysis analyzeFrame
  rw [if_neg hgate, if_neg hne, if_pos hor]

/-- Witness for C2: on a concrete gate-passing request and a concrete 20-row
frame with an ATR spike (and no structure break), the classifier returns
`volatile_transition` with confidence 1 and the spike explanation only. -/
theorem volatile_transition_override_witness :
    run_regime_analysis requestC2 frameC2 =
      { market_regime := some "volatile_transition", confidence := 1,
        explanation := ["ATR has spiked, indicating a sharp increase in volatility."],
        learned_patterns := some
          { trend_character := some "unpredictable",
            false_breakout_risk := some "very_high",
            best_strategy_fit := ["breakout_strategies", "volatility_trading"] },
        risk_notes := ["High risk of whipsaws. Position sizing should be reduced."] } := by
  have h := volatile_transition_override requestC2 frameC2 (by decide) (by decide)
    (Or.inl frameAtrSpike_frameC2)
  rw [h, frameAtrSpike_frameC2, frameStructureBreak_frameC2]
  simp

/-- C6: for every price series with fewer than `ema_slow + 50` bars the
classifier returns a normal value with state `insufficient_data`, confidence
exactly 0.2 and a non-empty explanatory note (the embedding is a total
function, so no exception is possible); the same state, confidence and a note
are returned when the gate passes but the indicator frame retains no rows. -/
theorem regime_insufficient_data (request : MarketRegimeInput) (frame : List IndRow) :
    (request.price_history.length < request.indicators.ema_slow + 50 →
      (run_regime_analysis request frame).learning_state = "insufficient_data" ∧
      (run_regime_analysis request frame).confidence = 1/5 ∧
      (run_regime_analysis request frame).reasoning ≠ []) ∧
    (¬ request.price_history.length < request.indicators.ema_slow + 50 → frame = [] →
      (run_regime_analysis request frame).learning_state = "insufficient_data" ∧
      (run_regime_analysis request frame).confidence = 1/5 ∧
      (run_regime_analysis request frame).reasoning ≠ []) := by
  constructor
  · intro hlt
    simp [run_regime_analysis, if_pos hlt]
  · intro hge hfe
    subst hfe
    simp [run_regime_analysis, if_neg hge, analyzeFrame]

/-- Witness for C6: a concrete too-short request, and a concrete gate-passing
request with an empty indicator frame, both yield `insufficient_data` with
confidence 0.2 and a note. -/
theorem regime_insufficient_data_witness :
    ((run_regime_analysis requestShort []).learning_state = "insufficient_data" ∧
      (run_regime_analysis requestShort []).confidence = 1/5 ∧
      (run_regime_analysis requestShort []).reasoning ≠ []) ∧
    ((run_regime_analysis requestC2 []).learning_state = "insufficient_data" ∧
      (run_regime_analysis requestC2 []).confidence = 1/5 ∧
      (run_regime_analysis requestC2 []).reasoning ≠ []) :=
  ⟨(regime_insufficient_data requestShort []).1 (by decide),
   (regime_insufficient_data requestC2 []).2 (by decide) rfl⟩

/-- C4: the asset-aware learning cycle returns state `insufficient_data`
exactly when the trade history is empty, `warmup` exactly when the history is
non-empty and every asset group has fewer than 10 trades, and `success`
otherwise. -/
theorem learning_state_classification (std : List ℚ → ℚ) (request : LearningRequest) :
    (run_learning_cycle std request).learning_state =
      if request.trade_history = [] then "insufficient_data"
      else if (groupByAsset request.trade_history).all
          (fun g => decide (g.2.length < ASSET_MIN_TRADES_WARMUP)) then "warmup"
      else "success" :=
  run_learning_cycle_state std request

/-- C9: although the response object is initialised with state `active`, the
returned learning state is always one of `insufficient_data`, `warmup`,
`success` — never `active`. -/
theorem learning_state_never_active (std : List ℚ → ℚ) (request : LearningRequest) :
    ((run_learning_cycle std request).learning_state = "insufficient_data" ∨
      (run_learning_cycle std request).learning_state = "warmup" ∨
      (run_learning_cycle std request).learning_state = "success") ∧
    (run_learning_cycle std request).learning_state ≠ "active" := by
  rw [run_learning_cycle_state]
  split_ifs <;> simp

/-- C5: the risk delta mapping contains exactly one global `risk_per_trade`
reduction of the fixed step iff at least one warmed-up asset shows a
consecutive-loss run of 3 in its recent window or a recent-window drawdown
above 0.08; otherwise it is empty. The reduction is applied once in total,
not once per flagged asset. -/
theorem global_risk_reduction (std : List ℚ → ℚ) (request : LearningRequest) :
    (run_learning_cycle std request).policy_deltas.risk =
      if (groupByAsset request.trade_history).any (assetFlagged std) then
        [("risk_per_trade", RISK_PER_TRADE_ADJUSTMENT)]
      else [] := by
  by_cases h : groupByAsset request.trade_history = []
  · simp [run_learning_cycle, h]
  · simp only [run_learning_cycle, if_neg h]
    rw [foldl_processAsset_flag]
    simp only [Bool.false_or]

/-- C10: the policy deltas always have empty `agent_weights`, `strategy_bias`
and `guardrails` mappings; every per-asset bias delta equals +0.05 or −0.05;
and the risk mapping is either empty or exactly the single −0.005
`risk_per_trade` entry. -/
theorem policy_deltas_shape (std : List ℚ → ℚ) (request : LearningRequest) :
    (run_learning_cycle std request).policy_deltas.agent_weights = [] ∧
    (run_learning_cycle std request).policy_deltas.strategy_bias = [] ∧
    (run_learning_cycle std request).policy_deltas.guardrails = [] ∧
    (run_learning_cycle std request).policy_deltas.asset_biases.all
      (fun p => decide (p.2 = BIAS_ADJUSTMENT_INCREMENT ∨
        p.2 = -BIAS_ADJUSTMENT_INCREMENT)) = true ∧
    ((run_learning_cycle std request).policy_deltas.risk = [] ∨
      (run_learning_cycle std request).policy_deltas.risk =
        [("risk_per_trade", RISK_PER_TRADE_ADJUSTMENT)]) := by
  by_cases h : groupByAsset request.trade_history = []
  · simp [run_learning_cycle, h]
  · simp only [run_learning_cycle, if_neg h]
    refine ⟨by trivial, by trivial, by trivial, ?_, ?_⟩
    · rw [List.all_eq_true]
      intro p hp
      have hmem := foldl_processAsset_biases std (groupByAsset request.trade_history)
        ⟨0, false, [], []⟩ p hp
      rcases hmem with h1 | h2
      · simp at h1
      · simpa using h2
    · cases hbool : ((groupByAsset request.trade_history).foldl (processAsset std)
          ⟨0, false, [], []⟩).global_risk_adjustment_needed
      · left
        simp [hbool]
      · right
        simp [hbool]

/-- C7 counterexample: a source present in the weight map but absent from the
accuracy map is not skipped — it appears in the returned flag mapping, with
value `false`. -/
theorem confirmation_bias_skip_counterexample :
    detect_confirmation_bias [("a", (1 : ℚ)/2)] [("b", (1 : ℚ)/2)] = [("b", false)] := by
  simp [detect_confirmation_bias, List.lookup]

lemma lookup_map_flag (g : String × ℚ → ℚ → Bool) (accs : List (String × ℚ)) :
    ∀ (ws : List (String × ℚ)) (n : String), n ∈ ws.map Prod.fst →
      accs.lookup n = none →
      (ws.map (fun nw => match accs.lookup nw.1 with
        | some a => (nw.1, g nw a)
        | none => (nw.1, false))).lookup n = some false := by
  intro ws
  induction ws with
  | nil => intro n hmem _; simp at hmem
  | cons hd tl ih =>
    intro n hmem habs
    by_cases he : n = hd.1
    · subst he
      simp [habs, List.lookup]
    · rw [List.map_cons, List.mem_cons] at hmem
      rcases hmem with h1 | h2
      · exact absurd h1 he
      · have hbeq : (n == hd.1) = false := by
          simpa using he
        rcases hlk : List.lookup hd.1 accs with _ | a <;>
          simp only [List.map_cons, hlk, List.lookup_cons, hbeq] <;>
          exact ih n h2 habs

/-- C7 amended: a weighted source absent from the accuracy map is skipped
only for flagging purposes: when the accuracy map is empty the returned
mapping is empty, and otherwise the source appears in the returned mapping
with flag `false` (it is never flagged, but it is not omitted). -/
theorem confirmation_bias_absent_sources (accs ws : List (String × ℚ)) (n : String)
    (hmem : n ∈ ws.map Prod.fst) (habs : accs.lookup n = none) :
    (accs = [] → detect_confirmation_bias accs ws = []) ∧
    (accs ≠ [] → (detect_confirmation_bias accs ws).lookup n = some false) := by
  constructor
  · intro h
    simp [detect_confirmation_bias, h]
  · intro h
    rw [detect_confirmation_bias, if_neg h]
    exact lookup_map_flag
      (fun nw a => decide (nw.2 > (2/5 : ℚ)) && decide (a < medianAccuracy accs))
      accs ws n hmem habs

/-- Witness for C7's amended claim: the absent source `b` appears with flag
`false` in the returned mapping. -/
theorem confirmation_bias_absent_sources_witness :
    (detect_confirmation_bias [("a", (1 : ℚ)/2)] [("b", (3 : ℚ)/4)]).lookup "b" =
      some false :=
  (confirmation_bias_absent_sources [("a", (1 : ℚ)/2)] [("b", (3 : ℚ)/4)] "b"
    (by simp) (by simp [List.lookup])).2 (by simp)

/-- C8: confirmation-bias detection never flags a source whose weight is at
most 0.4 (given dict-like unique keys in the weight map), and a source is
flagged only if its weight exceeds 0.4 and its accuracy is present and below
the median accuracy. -/
theorem confirmation_bias_flag_conditions (accs ws : List (String × ℚ)) :
    (∀ n w, (ws.map Prod.fst).Nodup → (n, w) ∈ ws → w ≤ 2/5 →
      (n, true) ∉ detect_confirmation_bias accs ws) ∧
    (∀ n, (n, true) ∈ detect_confirmation_bias accs ws →
      ∃ w a, (n, w) ∈ ws ∧ (2 : ℚ)/5 < w ∧ accs.lookup n = some a ∧
        a < medianAccuracy accs) := by
  have key : ∀ n, (n, true) ∈ detect_confirmation_bias accs ws →
      ∃ w a, (n, w) ∈ ws ∧ (2 : ℚ)/5 < w ∧ accs.lookup n = some a ∧
        a < medianAccuracy accs := by
    intro n hn
    rw [detect_confirmation_bias] at hn
    split at hn
    · simp at hn
    · obtain ⟨nw, hnw, hfn⟩ := List.mem_map.mp hn
      rcases hlk : accs.lookup nw.1 with _ | a
      · rw [hlk] at hfn
        simp at hfn
      · rw [hlk] at hfn
        have h1 : nw.1 = n := congrArg Prod.fst hfn
        have h2 : (decide (nw.2 > (2 : ℚ)/5) &&
            decide (a < medianAccuracy accs)) = true := congrArg Prod.snd hfn
        simp only [Bool.and_eq_true, decide_eq_true_eq] at h2
        exact ⟨nw.2, a, by rw [← h1]; exact hnw, h2.1, by rw [← h1]; exact hlk, h2.2⟩
  refine ⟨?_, key⟩
  intro n w hnd hmem hle hcon
  obtain ⟨w', a, hmem', hgt, _, _⟩ := key n hcon
  have : w = w' := nodup_keys_eq ws hnd hmem hmem'
  rw [this] at hle
  exact absurd hgt (not_lt.mpr hle)

/-- Witness for C8: with accuracies a ↦ 0, b ↦ 1 (median 1) and weights
a ↦ 0.5, c ↦ 1/3, the low-weight source `c` is not flagged, and the flagged
source `a` satisfies the weight and accuracy conditions. -/
theorem confirmation_bias_flag_conditions_witness :
    (("c", true) ∉ detect_confirmation_bias [("a", (0 : ℚ)), ("b", 1)]
      [("a", (1 : ℚ)/2), ("c", (1 : ℚ)/3)]) ∧
    (∃ w a, ("a", w) ∈ [("a", (1 : ℚ)/2), ("c", (1 : ℚ)/3)] ∧ (2 : ℚ)/5 < w ∧
      List.lookup "a" [("a", (0 : ℚ)), ("b", 1)] = some a ∧
      a < medianAccuracy [("a", (0 : ℚ)), ("b", 1)]) := by
  constructor
  · exact (confirmation_bias_flag_conditions _ _).1 "c" ((1 : ℚ)/3) (by decide)
      (by simp) (by norm_num)
  · refine (confirmation_bias_flag_conditions _ _).2 "a" ?_
    have hmed : medianAccuracy [("a", (0 : ℚ)), ("b", 1)] = 1 := by
      norm_num [medianAccuracy, List.mergeSort]
    have hne : ([("a", (0 : ℚ)), ("b", 1)] : List (String × ℚ)) ≠ [] := by simp
    unfold detect_confirmation_bias
    rw [if_neg hne]
    refine List.mem_map.mpr ⟨("a", (1 : ℚ)/2), by simp, ?_⟩
    rw [show (List.lookup "a" [("a", (0 : ℚ)), ("b", 1)]) = some 0 from rfl]
    rw [hmed]
    norm_num

set_option maxHeartbeats 4000000 in
/-- C1: in the regime classifier (`_classify_regime`), the three signal
groups are scored by their count of true members; the returned regime is the
one achieving the strict, uniquely achieved maximum score when that maximum is
at least 2, with confidence score/3, and every other feature combination
yields regime `undefined` with confidence exactly 0.3. -/
theorem classify_regime_matches_claim (ind : RegimeIndicators)
    (settings : IndicatorSettings) :
    ((_classify_regime ind settings).market_regime,
      (_classify_regime ind settings).confidence) = claimRegimeClassification ind := by
  obtain ⟨u, d, s, bu, be, w, ib, fl, adx, rsi⟩ := ind
  cases u <;> cases d <;> cases s <;> cases bu <;> cases be <;> cases w <;> cases ib <;>
    cases fl <;> exact rfl

end OptimizerAgent
